import Mathlib

/-!
Shallow embedding of the voice-assistant front-end client
(`src/hooks/useAudioRecorder.ts`, `src/app/page.tsx`, `src/services/api.ts`,
admin pages) and proofs about its state machines.

Browser promises are modelled by total Lean functions whose asynchronous
results (network calls, microphone acquisition, recorder data events) are
passed in as explicit `Except`/list parameters; a promise rejection is an
`Except.error` result, and a handler that catches every exception is a
total function returning the new state.
-/

namespace VoiceApp

/-- JavaScript numbers carried opaquely by API payloads; the client never
performs arithmetic on them, so an exact numeric type is adequate. -/
abbrev JSNum := Rat

/-! ## Audio recorder hook (`src/hooks/useAudioRecorder.ts`)

A media stream is a list of track identifiers; stopping a track records its
identifier in the `stoppedTracks` ledger of the recorder state, which stands
for the set of tracks on which `track.stop()` has been called. A `Blob` is a
byte list; `new Blob(chunks)` concatenates the chunk bytes. -/

structure Stream where
  tracks : List Nat
deriving DecidableEq

structure MediaRecorder where
  stream : Stream
deriving DecidableEq

/-- The state owned by `useAudioRecorder`: the `useState` cells
(`isRecording`, `audioBlob`, `error`), the refs (`mediaRecorderRef`,
`chunksRef`), and the ledger of tracks that have been stopped. -/
structure RecorderState where
  isRecording : Bool
  audioBlob : Option (List Nat)
  error : Option String
  mediaRecorder : Option MediaRecorder
  chunks : List (List Nat)
  stoppedTracks : List Nat
deriving DecidableEq

def initialRecorderState : RecorderState :=
  { isRecording := false
    audioBlob := none
    error := none
    mediaRecorder := none
    chunks := []
    stoppedTracks := [] }

/-- The audio constraint object a `getUserMedia` call can carry; a `none`
field is a constraint the call does not mention. -/
structure AudioConstraints where
  echoCancellation : Option Bool
  noiseSuppression : Option Bool
  sampleRate : Option Nat
  channelCount : Option Nat
deriving DecidableEq

/-- The constraint object passed to `navigator.mediaDevices.getUserMedia`
in `startRecording` (src/hooks/useAudioRecorder.ts lines 29-35): echo
cancellation, noise suppression and a 16000 Hz sample rate are requested;
no channel-count constraint appears in the source. -/
def requestedAudioConstraints : AudioConstraints :=
  { echoCancellation := some true
    noiseSuppression := some true
    sampleRate := some 16000
    channelCount := none }

/-- The constraint set the specification describes (mono, 16 kHz target,
echo cancellation and noise suppression), written from the spec's words for
comparison with `requestedAudioConstraints`. -/
def specClaimedAudioConstraints : AudioConstraints :=
  { echoCancellation := some true
    noiseSuppression := some true
    sampleRate := some 16000
    channelCount := some 1 }

/-- `startRecording` (lines 24-54): clear the error, reset the chunk buffer,
then await `getUserMedia`; on success install a fresh `MediaRecorder` over
the acquired stream and set `isRecording`; on failure the `catch` records an
error message and returns normally. The function never inspects or stops an
already-installed recorder. `mic` is the result of the `getUserMedia`
promise. -/
def startRecording (s : RecorderState) (mic : Except Unit Stream) : RecorderState :=
  let s1 := { s with error := none, chunks := ([] : List (List Nat)) }
  match mic with
  | .ok stream =>
      { s1 with mediaRecorder := some { stream := stream }, isRecording := true }
  | .error _ =>
      { s1 with error := some "Не удалось получить доступ к микрофону" }

/-- The `ondataavailable` handler (lines 41-45): push the event's data onto
the chunk buffer when its size is positive, else ignore it. -/
def onDataAvailable (s : RecorderState) (data : List Nat) : RecorderState :=
  if data.length > 0 then { s with chunks := s.chunks ++ [data] } else s

/-- `stopRecording` (lines 56-78): with no recorder installed the promise
rejects with "No active recording" and nothing changes; otherwise `onstop`
builds one blob from the buffered chunks, stores it, clears `isRecording`,
stops every track of the recorder's stream and resolves with the blob. -/
def stopRecording (s : RecorderState) : Except String (List Nat) × RecorderState :=
  match s.mediaRecorder with
  | none => (.error "No active recording", s)
  | some mr =>
      let blob := s.chunks.flatten
      (.ok blob,
       { s with
          audioBlob := some blob
          isRecording := false
          stoppedTracks := s.stoppedTracks ++ mr.stream.tracks })

/-- One full start/stop cycle: a successful start on `stream`, an arbitrary
sequence of `ondataavailable` events, then stop. -/
def recordCycle (s : RecorderState) (stream : Stream) (events : List (List Nat)) :
    Except String (List Nat) × RecorderState :=
  stopRecording (events.foldl onDataAvailable (startRecording s (.ok stream)))

theorem foldl_onDataAvailable (s : RecorderState) (events : List (List Nat)) :
    events.foldl onDataAvailable s
      = { s with chunks := s.chunks ++ events.filter (fun d => d.length > 0) } := by
  induction events generalizing s with
  | nil => simp
  | cons e es ih =>
      simp only [List.foldl_cons, List.filter_cons, ih, onDataAvailable]
      by_cases h : e.length > 0
      · simp [h, List.append_assoc]
      · simp [h]

/-- C3: a start/stop cycle resolves with exactly one payload, that payload
is the concatenation of exactly the non-empty data events buffered since the
matching start (the buffer having been reset by start), and stop records a
stop for every track of the capture stream. -/
theorem stop_resolves_with_buffered_payload
    (s : RecorderState) (stream : Stream) (events : List (List Nat)) :
    (startRecording s (.ok stream)).chunks = []
    ∧ (recordCycle s stream events).1
        = .ok ((events.filter (fun d => d.length > 0)).flatten)
    ∧ ((recordCycle s stream events).2.audioBlob
        = some ((events.filter (fun d => d.length > 0)).flatten))
    ∧ (stream.tracks.all
        (fun t => (recordCycle s stream events).2.stoppedTracks.contains t)) := by
  have hfold := foldl_onDataAvailable (startRecording s (.ok stream)) events
  refine ⟨rfl, ?_, ?_, ?_⟩
  · simp only [recordCycle]
    rw [hfold]
    simp [startRecording, stopRecording]
  · simp only [recordCycle]
    rw [hfold]
    simp [startRecording, stopRecording]
  · simp only [recordCycle]
    rw [hfold]
    simp [startRecording, stopRecording, List.all_eq_true, List.mem_append]
    intro t ht
    exact Or.inr ht

/-- C4 counterexample: the `getUserMedia` constraint object does not request
a mono (single-channel) capture; the claimed full constraint set (mono
together with 16 kHz, echo cancellation and noise suppression) is not what
the code requests. -/
theorem requested_constraints_not_mono :
    ¬ (requestedAudioConstraints.channelCount = some 1
       ∧ requestedAudioConstraints.sampleRate = some 16000
       ∧ requestedAudioConstraints.echoCancellation = some true
       ∧ requestedAudioConstraints.noiseSuppression = some true)
    ∧ requestedAudioConstraints ≠ specClaimedAudioConstraints := by
  constructor
  · intro h
    exact Option.noConfusion h.1
  · intro h
    exact Option.noConfusion (congrArg AudioConstraints.channelCount h)

/-- C4 amended: start requests a capture stream with echo cancellation and
noise suppression enabled and a 16 kHz target sample rate, and requests no
channel-count (mono) constraint. -/
theorem requested_constraints_amended :
    requestedAudioConstraints.echoCancellation = some true
    ∧ requestedAudioConstraints.noiseSuppression = some true
    ∧ requestedAudioConstraints.sampleRate = some 16000
    ∧ requestedAudioConstraints.channelCount = none :=
  ⟨rfl, rfl, rfl, rfl⟩

/-- C5: with a capture already active (a recorder installed), a second start
is not rejected, ignored or queued: it acquires the new stream, replaces the
recorder reference and resets the buffer, and it stops no track — the
previous capture's tracks are exactly as they were. -/
theorem second_start_unguarded
    (s : RecorderState) (old : MediaRecorder) (ns : Stream)
    (_hActive : s.mediaRecorder = some old) :
    startRecording s (.ok ns)
      = { s with
            error := none
            chunks := []
            mediaRecorder := some { stream := ns }
            isRecording := true }
    ∧ (startRecording s (.ok ns)).mediaRecorder = some { stream := ns }
    ∧ (startRecording s (.ok ns)).stoppedTracks = s.stoppedTracks := by
  exact ⟨rfl, rfl, rfl⟩

/-- A concrete recorder state with a capture active over the one-track
stream `[0]`, as after a successful `startRecording`. -/
def activeRecorderState : RecorderState :=
  { initialRecorderState with
      mediaRecorder := some { stream := { tracks := [0] } }
      isRecording := true }

/-- C5 witness: restarting on stream `[1]` while the capture over `[0]` is
active replaces the recorder and stops nothing. -/
theorem second_start_unguarded_witness :
    startRecording activeRecorderState (.ok { tracks := [1] })
      = { activeRecorderState with
            error := none
            chunks := []
            mediaRecorder := some { stream := { tracks := [1] } }
            isRecording := true }
    ∧ (startRecording activeRecorderState (.ok { tracks := [1] })).mediaRecorder
        = some { stream := { tracks := [1] } }
    ∧ (startRecording activeRecorderState
        (.ok { tracks := [1] })).stoppedTracks = activeRecorderState.stoppedTracks :=
  second_start_unguarded activeRecorderState
    { stream := { tracks := [0] } } { tracks := [1] } rfl

/-- C9: stopping with no recorder installed rejects with
"No active recording" and leaves every piece of the hook's state unchanged. -/
theorem stop_without_active_recording
    (s : RecorderState) (h : s.mediaRecorder = none) :
    stopRecording s = (.error "No active recording", s) := by
  simp [stopRecording, h]

/-- C9 witness: the freshly-initialized hook state. -/
theorem stop_without_active_recording_witness :
    initialRecorderState.mediaRecorder = none
    ∧ stopRecording initialRecorderState
        = (.error "No active recording", initialRecorderState) :=
  ⟨rfl, stop_without_active_recording initialRecorderState rfl⟩

/-! ## Voice page state machine (`src/app/page.tsx`)

The page owns the flow state, the session id, the last transcription and
response, and a user-facing error message. Network results are passed to
the handlers as `Except` parameters: `Except.error` is a rejected call. -/

structure TranscribeResponse where
  turn_id : String
  raw_transcript : String
  normalized_transcript : String
  confidence : JSNum
  stt_latency_ms : JSNum
deriving DecidableEq

structure RespondResponse where
  assistant_text : String
  audio_url : String
  tts_latency_ms : JSNum
deriving DecidableEq

inductive AppState
  | idle
  | recording
  | processing
  | confirming
  | responding
  | playing
deriving DecidableEq

structure PageState where
  state : AppState
  sessionId : Option String
  transcription : Option TranscribeResponse
  response : Option RespondResponse
  error : Option String
deriving DecidableEq

def initialPageState : PageState :=
  { state := .idle
    sessionId := none
    transcription := none
    response := none
    error := none }

/-- `initSession` (page.tsx lines 27-41): reuse the stored session id, else
await session creation; on success store and return the new id, on failure
set the error message and return null (`none`). Returns the updated page
state together with the id the caller receives. -/
def initSession (s : PageState) (sessionNet : Except Unit String) :
    PageState × Option String :=
  match s.sessionId with
  | some sid => (s, some sid)
  | none =>
      match sessionNet with
      | .ok sid => ({ s with sessionId := some sid }, some sid)
      | .error _ => ({ s with error := some "Не удалось создать сессию" }, none)

/-- `handlePressStart` (page.tsx lines 44-48): clear the error, await the
recorder's start (which never rejects), then unconditionally set the flow
state to `recording`. -/
def handlePressStart (p : PageState) (r : RecorderState) (mic : Except Unit Stream) :
    PageState × RecorderState :=
  ({ p with error := none, state := .recording }, startRecording r mic)

/-- The awaited part of `handlePressEnd` (page.tsx lines 54-69), run after
the state was set to `processing`: await the recorder's stop, create or
reuse the session, bail out to `idle` when no session id is available, then
upload the audio; a transcript moves to `confirming`, any thrown error is
caught, surfaced and the state returned to `idle`. -/
def handlePressEndAwait (s : PageState) (stopResult : Except String (List Nat))
    (sessionNet : Except Unit String) (uploadNet : Except Unit TranscribeResponse) :
    PageState :=
  match stopResult with
  | .error _ => { s with error := some "Ошибка при обработке аудио", state := .idle }
  | .ok _blob =>
      let r := initSession s sessionNet
      match r.2 with
      | none => { r.1 with state := .idle }
      | some _sid =>
          match uploadNet with
          | .ok result => { r.1 with transcription := some result, state := .confirming }
          | .error _ =>
              { r.1 with error := some "Ошибка при обработке аудио", state := .idle }

/-- `handlePressEnd` (page.tsx lines 51-70): set `processing`, then run the
awaited part. -/
def handlePressEnd (s : PageState) (stopResult : Except String (List Nat))
    (sessionNet : Except Unit String) (uploadNet : Except Unit TranscribeResponse) :
    PageState :=
  handlePressEndAwait { s with state := .processing } stopResult sessionNet uploadNet

/-- The awaited part of `handleConfirm` (page.tsx lines 78-94), run after
the guard passed and the state was set to `responding`: await the
confirmation call and then the response generation; success stores the
response and moves to `playing`; a failure of either call is caught,
surfaced and the state returned to `idle`. -/
def handleConfirmAwait (s : PageState) (confirmNet : Except Unit Bool)
    (respondNet : Except Unit RespondResponse) : PageState :=
  match confirmNet with
  | .error _ => { s with error := some "Ошибка при генерации ответа", state := .idle }
  | .ok _ =>
      match respondNet with
      | .ok result => { s with response := some result, state := .playing }
      | .error _ =>
          { s with error := some "Ошибка при генерации ответа", state := .idle }

/-- `handleConfirm` (page.tsx lines 73-95): return unchanged unless a
session id and a transcription are held, else set `responding` and run the
awaited part. -/
def handleConfirm (s : PageState) (confirmNet : Except Unit Bool)
    (respondNet : Except Unit RespondResponse) : PageState :=
  match s.sessionId, s.transcription with
  | some _, some _ => handleConfirmAwait { s with state := .responding } confirmNet respondNet
  | _, _ => s

/-- The awaited part of `handleCorrect` (page.tsx lines 103-118); identical
to `handleConfirmAwait` except for the surfaced message. -/
def handleCorrectAwait (s : PageState) (confirmNet : Except Unit Bool)
    (respondNet : Except Unit RespondResponse) : PageState :=
  match confirmNet with
  | .error _ =>
      { s with error := some "Ошибка при сохранении исправления", state := .idle }
  | .ok _ =>
      match respondNet with
      | .ok result => { s with response := some result, state := .playing }
      | .error _ =>
          { s with error := some "Ошибка при сохранении исправления", state := .idle }

/-- `handleCorrect` (page.tsx lines 98-119): same guard and shape as
`handleConfirm`; `correctedText` only feeds the request payload. -/
def handleCorrect (s : PageState) (_correctedText : String)
    (confirmNet : Except Unit Bool) (respondNet : Except Unit RespondResponse) :
    PageState :=
  match s.sessionId, s.transcription with
  | some _, some _ => handleCorrectAwait { s with state := .responding } confirmNet respondNet
  | _, _ => s

/-- `handleRetry` (page.tsx lines 122-125): drop the transcription and
return to `idle`. -/
def handleRetry (s : PageState) : PageState :=
  { s with transcription := none, state := .idle }

/-- `handlePlaybackComplete` (page.tsx lines 128-132): return to `idle` and
drop both the transcription and the response. -/
def handlePlaybackComplete (s : PageState) : PageState :=
  { s with state := .idle, transcription := none, response := none }

/-! Concrete sample data for witnesses and counterexamples. -/

def sampleTranscription : TranscribeResponse :=
  { turn_id := "t1"
    raw_transcript := "привет"
    normalized_transcript := "привет"
    confidence := 9 / 10
    stt_latency_ms := 120 }

def sampleResponse : RespondResponse :=
  { assistant_text := "Чем могу помочь?"
    audio_url := "/audio/1.mp3"
    tts_latency_ms := 200 }

def recordingPageState : PageState :=
  { initialPageState with state := .recording }

def processingPageState : PageState :=
  { initialPageState with state := .processing }

/-- The page state in which the confirmation screen is shown: a session id
and a transcription are held. -/
def confirmingPageState : PageState :=
  { state := .confirming
    sessionId := some "s1"
    transcription := some sampleTranscription
    response := none
    error := none }

def respondingPageState : PageState :=
  { confirmingPageState with state := .responding }

def playingPageState : PageState :=
  { confirmingPageState with state := .playing, response := some sampleResponse }

/-- C1: the success-path transitions of the voice flow are exactly the
specified ones: press-start in `idle` yields `recording`; release passes
through `processing` (submitting the captured audio) and a transcript
yields `confirming`; confirmation and correction pass through `responding`
(requesting a reply) and a reply yields `playing`; playback completion and
retry yield `idle`. -/
theorem voice_flow_success_path :
    (∀ (p : PageState) (r : RecorderState) (mic : Except Unit Stream),
       p.state = .idle → (handlePressStart p r mic).1.state = .recording)
    ∧ (∀ (p : PageState) (stopResult : Except String (List Nat))
         (sessionNet : Except Unit String) (uploadNet : Except Unit TranscribeResponse),
       p.state = .recording →
       handlePressEnd p stopResult sessionNet uploadNet
         = handlePressEndAwait { p with state := .processing }
             stopResult sessionNet uploadNet)
    ∧ (∀ (p : PageState) (blob : List Nat) (sessionNet : Except Unit String)
         (tr : TranscribeResponse),
       p.state = .processing → (initSession p sessionNet).2.isSome = true →
       (handlePressEndAwait p (.ok blob) sessionNet (.ok tr)).state = .confirming)
    ∧ (∀ (p : PageState) (c : Except Unit Bool) (rn : Except Unit RespondResponse),
       p.state = .confirming → p.sessionId.isSome = true →
       p.transcription.isSome = true →
       handleConfirm p c rn
         = handleConfirmAwait { p with state := .responding } c rn)
    ∧ (∀ (p : PageState) (txt : String) (c : Except Unit Bool)
         (rn : Except Unit RespondResponse),
       p.state = .confirming → p.sessionId.isSome = true →
       p.transcription.isSome = true →
       handleCorrect p txt c rn
         = handleCorrectAwait { p with state := .responding } c rn)
    ∧ (∀ (p : PageState) (b : Bool) (rsp : RespondResponse),
       p.state = .responding →
       (handleConfirmAwait p (.ok b) (.ok rsp)).state = .playing
       ∧ (handleCorrectAwait p (.ok b) (.ok rsp)).state = .playing)
    ∧ (∀ p : PageState,
       (handlePlaybackComplete p).state = .idle ∧ (handleRetry p).state = .idle) := by
  refine ⟨?_, ?_, ?_, ?_, ?_, ?_, ?_⟩
  · intro p r mic _
    rfl
  · intro p stopResult sessionNet uploadNet _
    rfl
  · intro p blob sessionNet tr _ h
    obtain ⟨sid, hs⟩ := Option.isSome_iff_exists.mp h
    simp [handlePressEndAwait, hs]
  · intro p c rn _ hs ht
    obtain ⟨sid, hsid⟩ := Option.isSome_iff_exists.mp hs
    obtain ⟨tr, htr⟩ := Option.isSome_iff_exists.mp ht
    simp [handleConfirm, hsid, htr]
  · intro p txt c rn _ hs ht
    obtain ⟨sid, hsid⟩ := Option.isSome_iff_exists.mp hs
    obtain ⟨tr, htr⟩ := Option.isSome_iff_exists.mp ht
    simp [handleCorrect, hsid, htr]
  · intro p b rsp _
    exact ⟨rfl, rfl⟩
  · intro p
    exact ⟨rfl, rfl⟩

/-- C1 witness: each success transition exercised on a concrete run. -/
theorem voice_flow_success_path_witness :
    (handlePressStart initialPageState initialRecorderState
        (.ok { tracks := [0] })).1.state = .recording
    ∧ handlePressEnd recordingPageState (.ok [1]) (.ok "s1") (.ok sampleTranscription)
        = handlePressEndAwait { recordingPageState with state := .processing }
            (.ok [1]) (.ok "s1") (.ok sampleTranscription)
    ∧ (handlePressEndAwait processingPageState (.ok [1]) (.ok "s1")
        (.ok sampleTranscription)).state = .confirming
    ∧ handleConfirm confirmingPageState (.ok true) (.ok sampleResponse)
        = handleConfirmAwait { confirmingPageState with state := .responding }
            (.ok true) (.ok sampleResponse)
    ∧ handleCorrect confirmingPageState "так я сказал" (.ok true) (.ok sampleResponse)
        = handleCorrectAwait { confirmingPageState with state := .responding }
            (.ok true) (.ok sampleResponse)
    ∧ ((handleConfirmAwait respondingPageState (.ok true) (.ok sampleResponse)).state
          = .playing
       ∧ (handleCorrectAwait respondingPageState (.ok true) (.ok sampleResponse)).state
          = .playing)
    ∧ ((handlePlaybackComplete playingPageState).state = .idle
       ∧ (handleRetry playingPageState).state = .idle) :=
  ⟨voice_flow_success_path.1 initialPageState initialRecorderState
      (.ok { tracks := [0] }) rfl,
   voice_flow_success_path.2.1 recordingPageState (.ok [1]) (.ok "s1")
      (.ok sampleTranscription) rfl,
   voice_flow_success_path.2.2.1 processingPageState [1] (.ok "s1")
      sampleTranscription rfl rfl,
   voice_flow_success_path.2.2.2.1 confirmingPageState (.ok true)
      (.ok sampleResponse) rfl rfl rfl,
   voice_flow_success_path.2.2.2.2.1 confirmingPageState "так я сказал"
      (.ok true) (.ok sampleResponse) rfl rfl rfl,
   voice_flow_success_path.2.2.2.2.2.1 respondingPageState true sampleResponse rfl,
   voice_flow_success_path.2.2.2.2.2.2 playingPageState⟩

/-- C2: every transitioning network step that fails returns the flow to
`idle` with a non-null surfaced error message: the audio upload after
release, the transcript-confirmation call and the response generation (both
after a confirmation and after a correction). -/
theorem network_failure_returns_to_idle :
    (∀ (p : PageState) (blob : List Nat) (sessionNet : Except Unit String),
       (initSession p sessionNet).2.isSome = true →
       (handlePressEndAwait p (.ok blob) sessionNet (.error ())).state = .idle
       ∧ (handlePressEndAwait p (.ok blob) sessionNet (.error ())).error
           = some "Ошибка при обработке аудио")
    ∧ (∀ (p : PageState) (rn : Except Unit RespondResponse),
       p.sessionId.isSome = true → p.transcription.isSome = true →
       (handleConfirm p (.error ()) rn).state = .idle
       ∧ (handleConfirm p (.error ()) rn).error = some "Ошибка при генерации ответа")
    ∧ (∀ (p : PageState) (b : Bool),
       p.sessionId.isSome = true → p.transcription.isSome = true →
       (handleConfirm p (.ok b) (.error ())).state = .idle
       ∧ (handleConfirm p (.ok b) (.error ())).error
           = some "Ошибка при генерации ответа")
    ∧ (∀ (p : PageState) (txt : String) (rn : Except Unit RespondResponse),
       p.sessionId.isSome = true → p.transcription.isSome = true →
       (handleCorrect p txt (.error ()) rn).state = .idle
       ∧ (handleCorrect p txt (.error ()) rn).error
           = some "Ошибка при сохранении исправления")
    ∧ (∀ (p : PageState) (txt : String) (b : Bool),
       p.sessionId.isSome = true → p.transcription.isSome = true →
       (handleCorrect p txt (.ok b) (.error ())).state = .idle
       ∧ (handleCorrect p txt (.ok b) (.error ())).error
           = some "Ошибка при сохранении исправления") := by
  refine ⟨?_, ?_, ?_, ?_, ?_⟩
  · intro p blob sessionNet h
    obtain ⟨sid, hs⟩ := Option.isSome_iff_exists.mp h
    constructor <;> simp [handlePressEndAwait, hs]
  · intro p rn hs ht
    obtain ⟨sid, hsid⟩ := Option.isSome_iff_exists.mp hs
    obtain ⟨tr, htr⟩ := Option.isSome_iff_exists.mp ht
    constructor <;> simp [handleConfirm, handleConfirmAwait, hsid, htr]
  · intro p b hs ht
    obtain ⟨sid, hsid⟩ := Option.isSome_iff_exists.mp hs
    obtain ⟨tr, htr⟩ := Option.isSome_iff_exists.mp ht
    constructor <;> simp [handleConfirm, handleConfirmAwait, hsid, htr]
  · intro p txt rn hs ht
    obtain ⟨sid, hsid⟩ := Option.isSome_iff_exists.mp hs
    obtain ⟨tr, htr⟩ := Option.isSome_iff_exists.mp ht
    constructor <;> simp [handleCorrect, handleCorrectAwait, hsid, htr]
  · intro p txt b hs ht
    obtain ⟨sid, hsid⟩ := Option.isSome_iff_exists.mp hs
    obtain ⟨tr, htr⟩ := Option.isSome_iff_exists.mp ht
    constructor <;> simp [handleCorrect, handleCorrectAwait, hsid, htr]

/-- C2 witness: each failing step exercised on a concrete run. -/
theorem network_failure_returns_to_idle_witness :
    ((handlePressEndAwait processingPageState (.ok [1]) (.ok "s1")
        (.error ())).state = .idle
     ∧ (handlePressEndAwait processingPageState (.ok [1]) (.ok "s1")
        (.error ())).error = some "Ошибка при обработке аудио")
    ∧ ((handleConfirm confirmingPageState (.error ()) (.ok sampleResponse)).state
          = .idle
       ∧ (handleConfirm confirmingPageState (.error ()) (.ok sampleResponse)).error
          = some "Ошибка при генерации ответа")
    ∧ ((handleConfirm confirmingPageState (.ok true) (.error ())).state = .idle
       ∧ (handleConfirm confirmingPageState (.ok true) (.error ())).error
          = some "Ошибка при генерации ответа")
    ∧ ((handleCorrect confirmingPageState "текст" (.error ())
          (.ok sampleResponse)).state = .idle
       ∧ (handleCorrect confirmingPageState "текст" (.error ())
          (.ok sampleResponse)).error = some "Ошибка при сохранении исправления")
    ∧ ((handleCorrect confirmingPageState "текст" (.ok true) (.error ())).state
          = .idle
       ∧ (handleCorrect confirmingPageState "текст" (.ok true) (.error ())).error
          = some "Ошибка при сохранении исправления") :=
  ⟨network_failure_returns_to_idle.1 processingPageState [1] (.ok "s1") rfl,
   network_failure_returns_to_idle.2.1 confirmingPageState (.ok sampleResponse)
      rfl rfl,
   network_failure_returns_to_idle.2.2.1 confirmingPageState true rfl rfl,
   network_failure_returns_to_idle.2.2.2.1 confirmingPageState "текст"
      (.ok sampleResponse) rfl rfl,
   network_failure_returns_to_idle.2.2.2.2 confirmingPageState "текст" true rfl rfl⟩

/-- C7 counterexample: a response-generation failure while confirming
returns the flow to `idle` but leaves the held transcription set, so the
turn-local view state differs from the initial `idle` state (and from the
state after a successful playback completion), where the transcription is
`none`. -/
theorem failed_turn_keeps_transcription :
    (handleConfirm confirmingPageState (.ok true) (.error ())).state = .idle
    ∧ (handleConfirm confirmingPageState (.ok true) (.error ())).transcription
        = some sampleTranscription
    ∧ initialPageState.transcription = none
    ∧ (handlePlaybackComplete playingPageState).transcription = none
    ∧ (handleConfirm confirmingPageState (.ok true) (.error ())).transcription
        ≠ initialPageState.transcription :=
  ⟨rfl, rfl, rfl, rfl, fun h => Option.noConfusion h⟩

/-- C7 amended: a failed transitioning step changes only the flow state and
the error message; the held transcription and response are left exactly as
they were (stale), and they are cleared only by retry (transcription) or
playback completion (both). They therefore match the initial `idle` values
only when they were already clear when the turn began. -/
theorem failed_turn_leaves_view_state_stale :
    (∀ (p : PageState) (sessionNet : Except Unit String)
       (uploadNet : Except Unit TranscribeResponse) (e : String),
       (handlePressEndAwait p (.error e) sessionNet uploadNet).transcription
           = p.transcription
       ∧ (handlePressEndAwait p (.error e) sessionNet uploadNet).response
           = p.response)
    ∧ (∀ (p : PageState) (blob : List Nat) (sessionNet : Except Unit String),
       (handlePressEndAwait p (.ok blob) sessionNet (.error ())).transcription
           = p.transcription
       ∧ (handlePressEndAwait p (.ok blob) sessionNet (.error ())).response
           = p.response)
    ∧ (∀ (p : PageState) (rn : Except Unit RespondResponse),
       (handleConfirm p (.error ()) rn).transcription = p.transcription
       ∧ (handleConfirm p (.error ()) rn).response = p.response)
    ∧ (∀ (p : PageState) (b : Bool),
       (handleConfirm p (.ok b) (.error ())).transcription = p.transcription
       ∧ (handleConfirm p (.ok b) (.error ())).response = p.response)
    ∧ (∀ (p : PageState) (txt : String) (rn : Except Unit RespondResponse),
       (handleCorrect p txt (.error ()) rn).transcription = p.transcription
       ∧ (handleCorrect p txt (.error ()) rn).response = p.response)
    ∧ (∀ (p : PageState) (txt : String) (b : Bool),
       (handleCorrect p txt (.ok b) (.error ())).transcription = p.transcription
       ∧ (handleCorrect p txt (.ok b) (.error ())).response = p.response)
    ∧ (∀ p : PageState,
       (handleRetry p).transcription = none
       ∧ (handlePlaybackComplete p).transcription = none
       ∧ (handlePlaybackComplete p).response = none) := by
  refine ⟨?_, ?_, ?_, ?_, ?_, ?_, ?_⟩
  · intro p sessionNet uploadNet e
    exact ⟨rfl, rfl⟩
  · intro p blob sessionNet
    cases hsid : p.sessionId with
    | some sid => constructor <;> simp [handlePressEndAwait, initSession, hsid]
    | none =>
        cases sessionNet with
        | ok sid => constructor <;> simp [handlePressEndAwait, initSession, hsid]
        | error u => constructor <;> simp [handlePressEndAwait, initSession, hsid]
  · intro p rn
    cases hsid : p.sessionId with
    | none => constructor <;> simp [handleConfirm, hsid]
    | some sid =>
        cases htr : p.transcription with
        | none => constructor <;> simp [handleConfirm, hsid, htr]
        | some tr =>
            constructor <;> simp [handleConfirm, handleConfirmAwait, hsid, htr]
  · intro p b
    cases hsid : p.sessionId with
    | none => constructor <;> simp [handleConfirm, hsid]
    | some sid =>
        cases htr : p.transcription with
        | none => constructor <;> simp [handleConfirm, hsid, htr]
        | some tr =>
            constructor <;> simp [handleConfirm, handleConfirmAwait, hsid, htr]
  · intro p txt rn
    cases hsid : p.sessionId with
    | none => constructor <;> simp [handleCorrect, hsid]
    | some sid =>
        cases htr : p.transcription with
        | none => constructor <;> simp [handleCorrect, hsid, htr]
        | some tr =>
            constructor <;> simp [handleCorrect, handleCorrectAwait, hsid, htr]
  · intro p txt b
    cases hsid : p.sessionId with
    | none => constructor <;> simp [handleCorrect, hsid]
    | some sid =>
        cases htr : p.transcription with
        | none => constructor <;> simp [handleCorrect, hsid, htr]
        | some tr =>
            constructor <;> simp [handleCorrect, handleCorrectAwait, hsid, htr]
  · intro p
    exact ⟨rfl, rfl, rfl⟩

/-- C10: a failed microphone acquisition is caught inside the hook's start
(which resolves normally, records the failure in its error field and leaves
`isRecording` and the recorder reference untouched), and the page's
press-start handler still moves the flow state from `idle` to `recording`. -/
theorem mic_failure_still_enters_recording
    (p : PageState) (r : RecorderState)
    (_hIdle : p.state = .idle) (hNotRec : r.isRecording = false) :
    (handlePressStart p r (.error ())).1.state = .recording
    ∧ (handlePressStart p r (.error ())).2.isRecording = false
    ∧ (handlePressStart p r (.error ())).2.error
        = some "Не удалось получить доступ к микрофону"
    ∧ (handlePressStart p r (.error ())).2.mediaRecorder = r.mediaRecorder := by
  refine ⟨rfl, ?_, rfl, rfl⟩
  simpa [handlePressStart, startRecording] using hNotRec

/-- C10 witness: the initial page and recorder states. -/
theorem mic_failure_still_enters_recording_witness :
    (handlePressStart initialPageState initialRecorderState (.error ())).1.state
        = .recording
    ∧ (handlePressStart initialPageState initialRecorderState
        (.error ())).2.isRecording = false
    ∧ (handlePressStart initialPageState initialRecorderState (.error ())).2.error
        = some "Не удалось получить доступ к микрофону"
    ∧ (handlePressStart initialPageState initialRecorderState
        (.error ())).2.mediaRecorder = initialRecorderState.mediaRecorder :=
  mic_failure_still_enters_recording initialPageState initialRecorderState rfl rfl

/-! ## API client (`src/services/api.ts`)

Only the headers relevant to authentication are modelled; every request of
the client starts from a config whose `Authorization` header is unset (the
`axios.create` defaults and the per-call overrides set only `Content-Type`). -/

structure RequestConfig where
  authorization : Option String
deriving DecidableEq

/-- The config every call of this client hands to the interceptor: no
`Authorization` header is preset anywhere in `api.ts`. -/
def clientRequestConfig : RequestConfig :=
  { authorization := none }

/-- The request interceptor (api.ts lines 17-23): read the token from
client-local storage; when present, set `Authorization` to
`Bearer <token>`; otherwise return the config unchanged. `storageToken` is
`localStorage.getItem("token")`. -/
def requestInterceptor (storageToken : Option String) (config : RequestConfig) :
    RequestConfig :=
  match storageToken with
  | some token => { config with authorization := some ("Bearer " ++ token) }
  | none => config

/-- C6: a request of the API client carries `Authorization: Bearer <token>`
exactly when a token is in client-local storage, and no `Authorization`
header otherwise. -/
theorem bearer_token_attached (storageToken : Option String) :
    (requestInterceptor storageToken clientRequestConfig).authorization
      = storageToken.map (fun t => "Bearer " ++ t) := by
  cases storageToken with
  | none => rfl
  | some token => rfl

/-! ## Admin pages (`src/app/admin/users/page.tsx`, the terms page, the
analytics page)

Each load or mutation handler is a function from the page state and the
network outcome to the new page state together with the list of messages
written to the developer console. -/

structure User where
  id : String
  name : String
  role : String
  language : String
  stt_provider : String
  tts_provider : String
  is_test_user : Bool
  created_at : String
  last_active_at : Option String
deriving DecidableEq

structure UnknownTerm where
  id : String
  language : String
  heard_variant : String
  correct_form : String
  context_examples : List String
  provider_where_seen : Option String
  occurrence_count : JSNum
  status : String
  created_at : String
  updated_at : String
deriving DecidableEq

structure ProviderMetrics where
  provider : String
  total_requests : JSNum
  avg_confidence : JSNum
  avg_stt_latency_ms : JSNum
  avg_tts_latency_ms : JSNum
  correction_rate : JSNum
deriving DecidableEq

structure TermCount where
  term : String
  count : JSNum
deriving DecidableEq

structure AnalyticsData where
  metrics : List ProviderMetrics
  top_unknown_terms : List TermCount
deriving DecidableEq

/-! ### Users page (`src/app/admin/users/page.tsx`) -/

structure EditForm where
  stt_provider : String
  tts_provider : String
deriving DecidableEq

structure UsersPageState where
  users : List User
  loading : Bool
  editingId : Option String
  editForm : EditForm
deriving DecidableEq

def initialUsersPageState : UsersPageState :=
  { users := []
    loading := true
    editingId := none
    editForm := { stt_provider := "", tts_provider := "" } }

/-- `loadUsers` (users page lines 16-25): store the list on success; on
failure log to the console and change nothing else; either way clear
`loading`. -/
def loadUsers (s : UsersPageState) (net : Except Unit (List User)) :
    UsersPageState × List String :=
  match net with
  | .ok data => ({ s with users := data, loading := false }, [])
  | .error _ => ({ s with loading := false }, ["Failed to load users:"])

/-- `saveEdit` (users page lines 32-40): on success leave edit mode (a
reload then runs as a separate `loadUsers` call); on failure log to the
console and change nothing. -/
def saveEdit (s : UsersPageState) (net : Except Unit User) :
    UsersPageState × List String :=
  match net with
  | .ok _ => ({ s with editingId := none }, [])
  | .error _ => (s, ["Failed to update user:"])

/-- The users page view: a loading indicator or the table; the page renders
no error branch at all. -/
inductive UsersView
  | loadingIndicator
  | table (users : List User)
deriving DecidableEq

def renderUsers (s : UsersPageState) : UsersView :=
  if s.loading then .loadingIndicator else .table s.users

/-! ### Terms page (the unnamed admin dictionary page) -/

structure NewTermForm where
  language : String
  heard_variant : String
  correct_form : String
deriving DecidableEq

structure TermsPageState where
  terms : List UnknownTerm
  loading : Bool
  statusFilter : String
  showAddForm : Bool
  newTerm : NewTermForm
deriving DecidableEq

def initialTermsPageState : TermsPageState :=
  { terms := []
    loading := true
    statusFilter := ""
    showAddForm := false
    newTerm := { language := "ru", heard_variant := "", correct_form := "" } }

/-- `loadTerms` (terms page lines 17-27): set `loading`, await the list;
store it on success, log on failure; either way clear `loading`. -/
def loadTerms (s : TermsPageState) (net : Except Unit (List UnknownTerm)) :
    TermsPageState × List String :=
  let s1 := { s with loading := true }
  match net with
  | .ok data => ({ s1 with terms := data, loading := false }, [])
  | .error _ => ({ s1 with loading := false }, ["Failed to load terms:"])

/-- `handleApprove` (terms page lines 29-36): on success a reload runs as a
separate `loadTerms` call; on failure log and change nothing. -/
def handleApprove (s : TermsPageState) (net : Except Unit UnknownTerm) :
    TermsPageState × List String :=
  match net with
  | .ok _ => (s, [])
  | .error _ => (s, ["Failed to approve term:"])

/-- `handleReject` (terms page lines 38-45). -/
def handleReject (s : TermsPageState) (net : Except Unit UnknownTerm) :
    TermsPageState × List String :=
  match net with
  | .ok _ => (s, [])
  | .error _ => (s, ["Failed to reject term:"])

/-- `handleAddTerm` (terms page lines 47-57): on success reset the form and
hide it (a reload then runs); on failure log and change nothing. -/
def handleAddTerm (s : TermsPageState) (net : Except Unit UnknownTerm) :
    TermsPageState × List String :=
  match net with
  | .ok _ =>
      ({ s with
          newTerm := { language := "ru", heard_variant := "", correct_form := "" }
          showAddForm := false }, [])
  | .error _ => (s, ["Failed to add term:"])

/-- The terms page view: a loading indicator or the table (an empty table
shows a neutral "no terms found" row); no error branch exists. -/
inductive TermsView
  | loadingIndicator
  | table (terms : List UnknownTerm)
deriving DecidableEq

def renderTerms (s : TermsPageState) : TermsView :=
  if s.loading then .loadingIndicator else .table s.terms

/-! ### Analytics page (the unnamed admin analytics page) -/

structure AnalyticsPageState where
  data : Option AnalyticsData
  loading : Bool
deriving DecidableEq

def initialAnalyticsPageState : AnalyticsPageState :=
  { data := none, loading := true }

/-- `loadAnalytics` (analytics page lines 19-28): store the result on
success, log on failure; either way clear `loading`. -/
def loadAnalytics (s : AnalyticsPageState) (net : Except Unit AnalyticsData) :
    AnalyticsPageState × List String :=
  match net with
  | .ok result => ({ s with data := some result, loading := false }, [])
  | .error _ => ({ s with loading := false }, ["Failed to load analytics:"])

/-- The analytics page view (its render function): the loading indicator
while loading, the red error text "Ошибка загрузки данных" when no data is
held, else the dashboard. -/
inductive AnalyticsView
  | loadingIndicator
  | loadErrorMessage
  | dashboard (d : AnalyticsData)
deriving DecidableEq

def renderAnalytics (s : AnalyticsPageState) : AnalyticsView :=
  if s.loading then .loadingIndicator
  else
    match s.data with
    | none => .loadErrorMessage
    | some d => .dashboard d

/-- C8 counterexample: a failed analytics load is logged, but the page then
renders the red error text "Ошибка загрузки данных" — a user-facing error
is raised for this admin data-loading operation, so not every admin
operation fails silently. -/
theorem analytics_failure_not_silent :
    (loadAnalytics initialAnalyticsPageState (.error ())).2
        = ["Failed to load analytics:"]
    ∧ renderAnalytics (loadAnalytics initialAnalyticsPageState (.error ())).1
        = .loadErrorMessage
    ∧ renderAnalytics (loadAnalytics initialAnalyticsPageState (.error ())).1
        ≠ .dashboard { metrics := [], top_unknown_terms := [] } :=
  ⟨rfl, rfl, fun h => AnalyticsView.noConfusion h⟩

/-- C8 amended: every failing admin load or mutation logs one console
message and leaves the page's list state unchanged (stale or empty); the
users and terms pages surface no error view (their views have no error
branch, so a failed load shows the stale or empty table), while the
analytics page, which cannot render its dashboard without data, shows a
generic load-error message when its only load failed. -/
theorem admin_failures_log_and_keep_state :
    (∀ s : UsersPageState,
       loadUsers s (.error ()) = ({ s with loading := false }, ["Failed to load users:"])
       ∧ renderUsers (loadUsers s (.error ())).1 = .table s.users)
    ∧ (∀ s : UsersPageState,
       saveEdit s (.error ()) = (s, ["Failed to update user:"]))
    ∧ (∀ s : TermsPageState,
       loadTerms s (.error ())
         = ({ s with loading := false }, ["Failed to load terms:"])
       ∧ renderTerms (loadTerms s (.error ())).1 = .table s.terms)
    ∧ (∀ s : TermsPageState,
       handleApprove s (.error ()) = (s, ["Failed to approve term:"])
       ∧ handleReject s (.error ()) = (s, ["Failed to reject term:"])
       ∧ handleAddTerm s (.error ()) = (s, ["Failed to add term:"]))
    ∧ (∀ s : AnalyticsPageState,
       loadAnalytics s (.error ())
         = ({ s with loading := false }, ["Failed to load analytics:"])
       ∧ (loadAnalytics s (.error ())).1.data = s.data)
    ∧ renderAnalytics (loadAnalytics initialAnalyticsPageState (.error ())).1
        = .loadErrorMessage := by
  refine ⟨?_, ?_, ?_, ?_, ?_, rfl⟩
  · intro s
    exact ⟨rfl, by simp [renderUsers, loadUsers]⟩
  · intro s
    rfl
  · intro s
    exact ⟨rfl, by simp [renderTerms, loadTerms]⟩
  · intro s
    exact ⟨rfl, rfl, rfl⟩
  · intro s
    exact ⟨rfl, rfl⟩

end VoiceApp
